import Mathlib

/-!
Verification of the `bun` user-interface package (src/bun) against its
natural-language specification.  The Python source is shallowly embedded:
each class becomes a Lean structure holding exactly the mutable attributes
the code reads and writes, each method becomes a function on that structure,
and Python exceptions become an explicit `Except` error channel.
-/

set_option maxRecDepth 4096

/-- Python exception kinds that can arise in the embedded code paths.
The source defines no exception classes of its own (the only handler in
src/bun is `except KeyboardInterrupt` in `CLI.login_details`), so every
error is one of the interpreter's built-in kinds. -/
inductive PyErr
  | valueError (msg : String)
  | indexError (msg : String)
  | attributeError (obj attr : String)
  | keyboardInterrupt
  | eofError
deriving DecidableEq

/-- The `\x7b` character, written via its code point. -/
def lbrace : Char := Char.ofNat 123

/-- The `\x7d` character, written via its code point. -/
def rbrace : Char := Char.ofNat 125

/-- Character-list worker for `pyFormat`.  Models Python `str.format` for
the auto-numbered bare placeholder form that this repository uses
(`text.format(*args)` with `\x7b\x7d` fields): a doubled brace is a literal
brace, a bare placeholder consumes the next positional argument (IndexError
when the arguments run out), and any other lone brace is a formatting
failure, as in Python. -/
def formatList : List Char → List String → Except PyErr (List Char)
  | [], _ => Except.ok []
  | c :: rest, args =>
    if c = lbrace then
      match rest with
      | [] => Except.error (PyErr.valueError "Single brace encountered in format string")
      | c2 :: rest2 =>
        if c2 = lbrace then (formatList rest2 args).map (fun l => lbrace :: l)
        else if c2 = rbrace then
          match args with
          | [] => Except.error (PyErr.indexError "Replacement index out of range")
          | a :: args2 => (formatList rest2 args2).map (fun l => a.data ++ l)
        else Except.error (PyErr.valueError "Unsupported replacement field")
    else if c = rbrace then
      match rest with
      | [] => Except.error (PyErr.valueError "Single brace encountered in format string")
      | c2 :: rest2 =>
        if c2 = rbrace then (formatList rest2 args).map (fun l => rbrace :: l)
        else Except.error (PyErr.valueError "Single brace encountered in format string")
    else (formatList rest args).map (fun l => c :: l)

/-- Python `text.format(*args)`, restricted as described at `formatList`. -/
def pyFormat (s : String) (args : List String) : Except PyErr String :=
  (formatList s.data args).map String.mk

/-- Python `s.capitalize()`: first character upper-cased, the rest lower-cased. -/
def pyCapitalize (s : String) : String :=
  match s.data with
  | [] => ""
  | c :: rest => String.mk (c.toUpper :: rest.map Char.toLower)

/-- Python `s.rstrip()`: trailing whitespace removed. -/
def pyRstrip (s : String) : String :=
  String.mk ((s.data.reverse.dropWhile Char.isWhitespace).reverse)

/-- Python truthiness of an optional string: `None` and the empty string
are falsy, every other string is truthy. -/
def optTruthy : Option String → Bool
  | none => false
  | some s => !s.isEmpty

/-- Python `str(x)` on an optional string (`None` renders as "None"),
as used by the f-string that builds the CLI welcome banner. -/
def pyStrOpt : Option String → String
  | none => "None"
  | some s => s

/-- One event on the terminal's input stream: either the user types a line
(the trailing newline already removed, as Python `input` does), or the user
interrupts (Ctrl-C). -/
inductive InEvent
  | line (s : String)
  | interrupt
deriving DecidableEq

/-- Python `input(prompt)`: consumes the next input event; an interrupt
raises KeyboardInterrupt, end of stream raises EOFError. -/
def pyInput (prompt : String) (stdin : List InEvent) :
    Except PyErr (String × List InEvent) :=
  match stdin with
  | [] => Except.error PyErr.eofError
  | InEvent.interrupt :: _ => Except.error PyErr.keyboardInterrupt
  | InEvent.line l :: rest => Except.ok (l, rest)

/-- The construction-time configuration of the UI
(`UI.__new__(name, subtitle, show_banner, use_gui, use_color, be_quiet)`). -/
structure Config where
  name : String
  subtitle : Option String
  show_banner : Bool
  use_gui : Bool
  use_color : Bool
  be_quiet : Bool
deriving DecidableEq

/-- State of the command-line backend (class `CLI` in src/bun/cli.py):
the configuration stored by `UIBase.__init__`, the `_started` flag, the
internal `_queue` of pending `(text, style)` pairs, and the sequence of
`(text, style)` pairs printed to the console so far (the observable
output of `self._console.print`). -/
structure CLI where
  name : String
  subtitle : Option String
  show_banner : Bool
  use_gui : Bool
  use_color : Bool
  be_quiet : Bool
  started : Bool
  queue : List (String × String)
  output : List (String × String)
deriving DecidableEq

/-- `CLI._print_or_queue(text, style)` (cli.py lines 97-103): print directly
when started, otherwise append to the internal queue. -/
def CLI.print_or_queue (s : CLI) (text style : String) : CLI :=
  if s.started then { s with output := s.output ++ [(text, style)] }
  else { s with queue := s.queue ++ [(text, style)] }

/-- The plain banner text `f'Welcome to \x7bname\x7d: \x7bsubtitle\x7d'`
(cli.py line 71). -/
def bannerPlain (name : String) (subtitle : Option String) : String :=
  "Welcome to " ++ name ++ ": " ++ pyStrOpt subtitle

/-- The fancy banner text with console markup (cli.py line 72). -/
def bannerFancy (name : String) (subtitle : Option String) : String :=
  "Welcome to [standout]" ++ name ++ "[/]: " ++ pyStrOpt subtitle

/-- `CLI.__init__` (cli.py lines 56-79): stores the configuration, starts
not-started with an empty queue, and, when a banner is requested and quiet
mode is off, queues the welcome banner through `_print_or_queue` so it is
the first message printed.  The rich `Panel` box and centering padding are
presentation detail abstracted to the banner's text content. -/
def CLI.init (cfg : Config) : CLI :=
  let s : CLI :=
    { name := cfg.name, subtitle := cfg.subtitle, show_banner := cfg.show_banner
      use_gui := cfg.use_gui, use_color := cfg.use_color, be_quiet := cfg.be_quiet
      started := false, queue := [], output := [] }
  if cfg.show_banner && !cfg.be_quiet then
    s.print_or_queue
      (if cfg.use_color then bannerFancy cfg.name cfg.subtitle
       else bannerPlain cfg.name cfg.subtitle) "info"
  else s

/-- `CLI.start` (cli.py lines 82-89): print every queued message in FIFO
order until the queue is empty, then set `_started`. -/
def CLI.start (s : CLI) : CLI :=
  { s with output := s.output ++ s.queue, queue := [], started := true }

/-- `CLI.stop` (cli.py lines 92-94): `pass`. -/
def CLI.stop (s : CLI) : CLI := s

/-- `CLI.inform(text, *args, **kwargs)` (cli.py lines 106-116): printed
(or queued) with style info unless quiet mode is on and no truthy `force`
keyword is supplied; when suppressed it is only logged, with no formatting
applied and no output. -/
def CLI.inform (s : CLI) (text : String) (args : List String) (force : Bool) :
    Except PyErr CLI :=
  if force || !s.be_quiet then
    (pyFormat text args).map (fun r => s.print_or_queue r "info")
  else Except.ok s

/-- `CLI.warn(text, *args)` (cli.py lines 119-121). -/
def CLI.warn (s : CLI) (text : String) (args : List String) : Except PyErr CLI :=
  (pyFormat text args).map (fun r => s.print_or_queue r "warn")

/-- `CLI.alert(text, *args)` (cli.py lines 124-126). -/
def CLI.alert (s : CLI) (text : String) (args : List String) : Except PyErr CLI :=
  (pyFormat text args).map (fun r => s.print_or_queue r "alert")

/-- `CLI.alert_fatal(text, *args, **kwargs)` (cli.py lines 129-139): when a
`details` keyword is supplied, a newline and the details are appended to the
text first, and placeholder formatting is applied to the concatenation; the
result is printed (or queued) with style fatal.  The body contains no call
to `stop()`. -/
def CLI.alert_fatal (s : CLI) (text : String) (args : List String)
    (details : Option String) : Except PyErr CLI :=
  let text := text ++ (match details with | some d => "\n" ++ d | none => "")
  (pyFormat text args).map (fun r => s.print_or_queue r "fatal")

/-- `CLI.confirm(question)` (cli.py lines 142-144): one blocking `input`
with prompt `question + ' (y/n) '`, answer tested with
`startswith(('y', 'Y'))`.  There is no exception handler. -/
def CLI.confirm (question : String) (stdin : List InEvent) :
    Except PyErr (Bool × List InEvent) :=
  (pyInput (question ++ " (y/n) ") stdin).map
    (fun p => (p.1.startsWith "y" || p.1.startsWith "Y", p.2))

/-- The prompt built by `CLI.file_selection`:
`operation_type.capitalize() + ' ' + question + ': '` (cli.py line 149). -/
def CLI.file_selection_prompt (operation_type question : String) : String :=
  pyCapitalize operation_type ++ " " ++ question ++ ": "

/-- `CLI.file_selection(operation_type, question, pattern)` (cli.py lines
147-149): one blocking `input`; the typed line is returned as is and the
`pattern` argument is never read.  There is no exception handler. -/
def CLI.file_selection (operation_type question pattern : String)
    (stdin : List InEvent) : Except PyErr (String × List InEvent) :=
  pyInput (CLI.file_selection_prompt operation_type question) stdin

/-- The username prompt of `CLI.login_details` (cli.py line 161). -/
def CLI.login_user_prompt (prompt : String) (user : Option String) : String :=
  if optTruthy user then prompt ++ " [default: " ++ user.getD "" ++ "]: "
  else prompt ++ ": "

/-- The password prompt of `CLI.login_details` (cli.py lines 165-166). -/
def CLI.login_pswd_prompt (user pswd : Option String) : String :=
  let hidden := if optTruthy pswd
    then " [default: " ++ String.mk (List.replicate (pswd.getD "").length '*') ++ "]"
    else ""
  "Password" ++ (if optTruthy user then " for \"" ++ user.getD "" ++ "\"" else "")
    ++ hidden ++ ": "

/-- `_password(prompt)` (cli.py lines 180-187): on a tty the line is read
by getpass, otherwise it is read from stdin and right-stripped. -/
def cliPasswordRead (prompt : String) (isatty : Bool) (stdin : List InEvent) :
    Except PyErr (String × List InEvent) :=
  if isatty then pyInput prompt stdin
  else (pyInput prompt stdin).map (fun p => (pyRstrip p.1, p.2))

/-- `CLI.login_details(prompt, user, pswd)` (cli.py lines 152-174): reads a
username (empty input falls back to the `user` default) and a password
(empty input falls back to the `pswd` default); on the submit path `None`
values are coerced to the empty string and `(final_user, final_pswd, False)`
is returned; a KeyboardInterrupt anywhere in the body is caught and the raw
prior defaults are returned as `(user, pswd, True)`.  Other errors (such as
EOFError) are not caught. -/
def CLI.login_details (prompt : String) (user pswd : Option String)
    (isatty : Bool) (stdin : List InEvent) :
    Except PyErr ((Option String × Option String × Bool) × List InEvent) :=
  match pyInput (CLI.login_user_prompt prompt user) stdin with
  | Except.error PyErr.keyboardInterrupt => Except.ok ((user, pswd, true), stdin)
  | Except.error e => Except.error e
  | Except.ok (lu, rest1) =>
    let input_user : Option String := if lu.length = 0 then user else some lu
    match cliPasswordRead (CLI.login_pswd_prompt user pswd) isatty rest1 with
    | Except.error PyErr.keyboardInterrupt => Except.ok ((user, pswd, true), rest1)
    | Except.error e => Except.error e
    | Except.ok (lp, rest2) =>
      let input_pswd : Option String := if lp.length = 0 then pswd else some lp
      let final_user := input_user.getD ""
      let final_pswd := input_pswd.getD ""
      Except.ok ((some final_user, some final_pswd, false), rest2)

/-- State of the windowed backend (class `GUI` in src/bun/gui.py): the
configuration, whether the main application frame is alive, the
acknowledgment queue `self._queue` used by `_wait`, the last dialog
response `self._response`, and the pubsub messages posted so far as
`(topic, payload)` pairs (the observable effect of
`wx.CallAfter(pub.sendMessage, ...)`). -/
structure GUI where
  name : String
  subtitle : Option String
  frame_alive : Bool
  wait_queue : List Bool
  response : Option Bool
  posts : List (String × String)
deriving DecidableEq

/-- `GUI.__init__` (gui.py lines 82-94): builds and shows the application
frame and creates an empty acknowledgment queue with no response yet. -/
def GUI.init (cfg : Config) : GUI :=
  { name := cfg.name, subtitle := cfg.subtitle, frame_alive := true
    wait_queue := [], response := none, posts := [] }

/-- A result delivered by the login dialog: `(user, password, cancelled)`
with the user and password possibly `None`. -/
abbrev LoginResult := Option String × Option String × Bool

/-- The single-slot result channel a `GUI.login_details` caller blocks on
(`results = Queue(); ...; results.get()`, gui.py lines 128-133), as the
list of values put on it so far.  The blocked caller is unblocked exactly
when the channel is nonempty. -/
abbrev ResultChannel := List LoginResult

/-- Whether a caller blocked on `results.get()` has been unblocked:
the thread-safe queue releases it precisely when a value is present. -/
def channelDelivered (c : ResultChannel) : Bool := !c.isEmpty

/-- A windowed-variant process: the GUI state plus the result channels of
the outstanding `login_details` requests, in creation order.  Each channel
is local to one call of `login_details` and is reachable only by that
caller and the dialog it spawned. -/
structure GUIProc where
  gui : GUI
  pendingLogin : List ResultChannel
deriving DecidableEq

/-- `GUI.stop` (gui.py lines 103-106): schedules destruction of the main
frame on the presentation context.  The body reads and writes nothing but
the frame; in particular it holds no reference to any outstanding request
channel. -/
def GUIProc.stop (p : GUIProc) : GUIProc :=
  { p with gui := { p.gui with frame_alive := false } }

/-- The request-issuing half of `GUI.login_details` (gui.py lines 128-133):
a fresh empty result channel is created and the `login_dialog` message is
posted; the caller then blocks on the channel. -/
def GUIProc.login_request (p : GUIProc) : GUIProc :=
  { p with gui := { p.gui with posts := p.gui.posts ++ [("login_dialog", "")] }
           pendingLogin := p.pendingLogin ++ [[]] }

/-- State of the modal login dialog (class `LoginDialog` in
src/quiche/app_frame.py): the stored user, password and cancel flag, and
the wait queue handed over by the caller. -/
structure LoginDialog where
  user : Option String
  password : Option String
  cancel : Bool
  wait_queue : ResultChannel
deriving DecidableEq

/-- `LoginDialog.return_values` (app_frame.py lines 379-381): puts
`(user, password, cancel)` on the caller's wait queue. -/
def LoginDialog.return_values (d : LoginDialog) : LoginDialog :=
  { d with wait_queue := d.wait_queue ++ [(d.user, d.password, d.cancel)] }

/-- `LoginDialog.on_cancel_or_quit` (app_frame.py lines 409-415): sets the
cancel flag and calls `return_values` twice (the source calls it on line
412 and again on line 414), then ends the modal dialog. -/
def LoginDialog.on_cancel_or_quit (d : LoginDialog) : LoginDialog :=
  LoginDialog.return_values (LoginDialog.return_values { d with cancel := true })

/-- `LoginDialog.on_ok` when both inputs are nonempty (app_frame.py lines
392-403): stores the field values, clears the cancel flag and calls
`return_values` twice. -/
def LoginDialog.on_ok (d : LoginDialog) (login_field password_field : String) :
    LoginDialog :=
  let d := { d with cancel := false, user := some login_field,
                    password := some password_field }
  LoginDialog.return_values (LoginDialog.return_values d)

/-- The possible clicks that close the fatal-alert dialog of
`GUI._show_alert_dialog` (gui.py lines 225-267). -/
inductive AlertClick
  | okBtn
  | noBtn
  | helpBtn
  | otherBtn
deriving DecidableEq

/-- Pubsub topics posted by `GUI._show_alert_dialog` with severity fatal,
by click: the help path posts stop (line 258), the OK/NO path posts stop
(line 264), the fallback path posts nothing. -/
def showAlertDialogFatalPosts : AlertClick → List String
  | AlertClick.helpBtn => ["stop"]
  | AlertClick.okBtn => ["stop"]
  | AlertClick.noBtn => ["stop"]
  | AlertClick.otherBtn => []

/-- Whether `GUI._show_alert_dialog` with severity fatal puts the
acknowledgment on `self._queue`, by click: every branch does (gui.py lines
255, 262, 267), so `_wait` always returns. -/
def showAlertDialogFatalAcks : AlertClick → Bool
  | AlertClick.helpBtn => true
  | AlertClick.okBtn => true
  | AlertClick.noBtn => true
  | AlertClick.otherBtn => true

/-- Pubsub topics posted during `GUI.alert_fatal` (gui.py lines 180-197)
once the user closes the dialog with the given click: whatever the dialog
itself posts, followed by the unconditional `pub.sendMessage('stop')` on
line 197 after `_wait` returns. -/
def GUI.alert_fatal_posts (c : AlertClick) : List String :=
  showAlertDialogFatalPosts c ++ ["stop"]

/-- The two interchangeable backends. -/
inductive Backend
  | cli (s : CLI)
  | gui (s : GUI)
deriving DecidableEq

/-- The process-wide singleton cell `UI.__instance` (ui.py line 31). -/
structure UIState where
  inst : Option Backend
deriving DecidableEq

/-- `UI.__new__` (ui.py lines 33-44): when no instance exists, construct a
GUI or CLI backend according to this call's `use_gui` flag and store it;
otherwise return the stored instance, ignoring every argument. -/
def UIState.new (g : UIState) (cfg : Config) : Backend × UIState :=
  match g.inst with
  | some b => (b, g)
  | none =>
    let b := if cfg.use_gui then Backend.gui (GUI.init cfg)
             else Backend.cli (CLI.init cfg)
    (b, { inst := some b })

/-- A sequence of `UI(...)` constructor calls, threaded through the
singleton cell. -/
def UIState.newAll (g : UIState) (cfgs : List Config) : UIState :=
  cfgs.foldl (fun a c => (UIState.new a c).2) g

/-- The shared body pattern of the seven free facade functions in ui.py
(lines 58-127): each does `ui = UI.instance()` and then accesses the
backend method `attr` on the result.  When the singleton cell is empty,
`UI.instance()` returns `None` and the attribute access raises Python's
AttributeError for NoneType; otherwise the stored backend handles the
call. -/
def facadeLookup (g : UIState) (attr : String) : Except PyErr Backend :=
  match g.inst with
  | none => Except.error (PyErr.attributeError "NoneType" attr)
  | some b => Except.ok b

/-- Issuing a sequence of `(text, style)` messages through
`CLI._print_or_queue`, in order. -/
def CLI.issueAll (s : CLI) (msgs : List (String × String)) : CLI :=
  msgs.foldl (fun a m => a.print_or_queue m.1 m.2) s

/-- A concrete configuration used by closed evaluation theorems below
(the one built by demos/cli_demo.py, with the banner disabled). -/
def demoCfg : Config :=
  { name := "demo", subtitle := some "A demonstration of Bun"
    show_banner := false, use_gui := false, use_color := true
    be_quiet := false }

/-- A started terminal backend with empty queue and no output yet. -/
def demoStartedCLI : CLI := CLI.start (CLI.init demoCfg)

/-- A not-started backend queues a message. -/
theorem print_or_queue_not_started (s : CLI) (text style : String)
    (h : s.started = false) :
    s.print_or_queue text style = { s with queue := s.queue ++ [(text, style)] } := by
  simp [CLI.print_or_queue, h]

/-- A started backend prints a message directly. -/
theorem print_or_queue_started (s : CLI) (text style : String)
    (h : s.started = true) :
    s.print_or_queue text style = { s with output := s.output ++ [(text, style)] } := by
  simp [CLI.print_or_queue, h]

/-- Messages issued before `start` all land on the queue, in order. -/
theorem issueAll_not_started (s : CLI) (msgs : List (String × String))
    (h : s.started = false) :
    CLI.issueAll s msgs = { s with queue := s.queue ++ msgs } := by
  induction msgs generalizing s with
  | nil => simp [CLI.issueAll]
  | cons m ms ih =>
    have h2 : CLI.issueAll s (m :: ms)
        = CLI.issueAll (s.print_or_queue m.1 m.2) ms := rfl
    rw [h2, print_or_queue_not_started s m.1 m.2 h, ih _ (by simp [h])]
    simp

/-- Messages issued after `start` are all printed directly, in order,
and the backend stays started with an untouched queue. -/
theorem issueAll_started (s : CLI) (msgs : List (String × String))
    (h : s.started = true) :
    CLI.issueAll s msgs = { s with output := s.output ++ msgs } := by
  induction msgs generalizing s with
  | nil => simp [CLI.issueAll]
  | cons m ms ih =>
    have h2 : CLI.issueAll s (m :: ms)
        = CLI.issueAll (s.print_or_queue m.1 m.2) ms := rfl
    rw [h2, print_or_queue_started s m.1 m.2 h, ih _ (by simp [h])]
    simp

/-- Claim C1: messages issued through the terminal backend before `start()`
are queued; `start()` renders them exactly once, in issue order, after
whatever was already queued; once started, every later message bypasses the
queue and is printed directly, and the backend remains in direct-render
mode (started, empty-queue) for any further sequence of messages. -/
theorem cli_pending_queue_fifo_drain :
    (∀ (s : CLI) (msgs : List (String × String)), s.started = false →
       CLI.start (CLI.issueAll s msgs)
         = { s with output := s.output ++ s.queue ++ msgs, queue := [],
                    started := true })
    ∧ (∀ (s : CLI) (text style : String), s.started = true →
       s.print_or_queue text style
         = { s with output := s.output ++ [(text, style)] })
    ∧ (∀ (s : CLI) (msgs : List (String × String)), s.started = true →
       s.queue = [] →
       CLI.issueAll s msgs = { s with output := s.output ++ msgs }
       ∧ (CLI.issueAll s msgs).started = true
       ∧ (CLI.issueAll s msgs).queue = []) := by
  refine ⟨?_, ?_, ?_⟩
  · intro s msgs h
    rw [issueAll_not_started s msgs h]
    simp [CLI.start, h]
  · intro s text style h
    exact print_or_queue_started s text style h
  · intro s msgs h hq
    rw [issueAll_started s msgs h]
    simp [h, hq]

/-- Witness for C1: two messages queued before `start()` on a freshly
constructed banner-less backend print exactly once in order, and a third
message after `start()` prints directly. -/
theorem cli_pending_queue_fifo_drain_witness :
    CLI.start (CLI.issueAll (CLI.init demoCfg) [("a", "info"), ("b", "warn")])
      = { CLI.init demoCfg with
          output := [("a", "info"), ("b", "warn")], queue := [], started := true }
    ∧ (CLI.start (CLI.init demoCfg)).print_or_queue "c" "alert"
      = { CLI.start (CLI.init demoCfg) with
          output := (CLI.start (CLI.init demoCfg)).output ++ [("c", "alert")] } := by
  constructor
  · have h := cli_pending_queue_fifo_drain.1 (CLI.init demoCfg)
      [("a", "info"), ("b", "warn")] rfl
    simpa using h
  · exact cli_pending_queue_fifo_drain.2.1 (CLI.start (CLI.init demoCfg)) "c" "alert" rfl

/-- Claim C2, counterexample: every free facade function called before the
Instance is constructed fails with Python's generic AttributeError for
NoneType — the same arbitrrary failure an access to any attribute of `None`
gives (last conjunct: even a method that does not exist anywhere fails
identically), not a defined `UIUninitialized` error kind; the source
defines no error kind of its own at all. -/
theorem facade_uninitialized_counterexample :
    facadeLookup { inst := none } "inform"
      = Except.error (PyErr.attributeError "NoneType" "inform")
    ∧ facadeLookup { inst := none } "warn"
      = Except.error (PyErr.attributeError "NoneType" "warn")
    ∧ facadeLookup { inst := none } "alert"
      = Except.error (PyErr.attributeError "NoneType" "alert")
    ∧ facadeLookup { inst := none } "alert_fatal"
      = Except.error (PyErr.attributeError "NoneType" "alert_fatal")
    ∧ facadeLookup { inst := none } "confirm"
      = Except.error (PyErr.attributeError "NoneType" "confirm")
    ∧ facadeLookup { inst := none } "login_details"
      = Except.error (PyErr.attributeError "NoneType" "login_details")
    ∧ facadeLookup { inst := none } "file_selection"
      = Except.error (PyErr.attributeError "NoneType" "file_selection")
    ∧ facadeLookup { inst := none } "no_such_method"
      = Except.error (PyErr.attributeError "NoneType" "no_such_method") :=
  ⟨rfl, rfl, rfl, rfl, rfl, rfl, rfl, rfl⟩

/-- Claim C2, amended: calling any free facade function before the
singleton Instance is constructed fails with the interpreter's generic
NoneType attribute error (an arbitrary unhandled failure, uniform over all
attribute names); once an instance exists, the lookup succeeds and the call
is dispatched to it. -/
theorem facade_uninitialized_generic_failure :
    (∀ attr : String, facadeLookup { inst := none } attr
        = Except.error (PyErr.attributeError "NoneType" attr))
    ∧ (∀ (b : Backend) (attr : String),
        facadeLookup { inst := some b } attr = Except.ok b) :=
  ⟨fun _ => rfl, fun _ _ => rfl⟩

/-- Claim C3, counterexample: with one login request pending on its (still
empty) result channel, tearing the presentation context down via `stop()`
leaves the channel empty, so the blocked caller is not unblocked and
receives nothing — in particular no cancelled result. -/
theorem gui_teardown_leaves_waiter_blocked :
    (GUIProc.stop (GUIProc.login_request
        { gui := GUI.init { demoCfg with use_gui := true }, pendingLogin := [] })
      ).pendingLogin = [([] : ResultChannel)]
    ∧ channelDelivered ([] : ResultChannel) = false :=
  ⟨rfl, rfl⟩

/-- Claim C3, amended: teardown of the presentation context never delivers
anything to a pending result channel — `stop()` leaves every outstanding
channel exactly as it was, so a waiter blocked on an undelivered request
stays blocked; a cancelled result reaches the channel only through the
login dialog's own cancel/close handler (which does deliver one, twice). -/
theorem gui_teardown_never_delivers :
    (∀ p : GUIProc, (GUIProc.stop p).pendingLogin = p.pendingLogin)
    ∧ (∀ d : LoginDialog,
        channelDelivered (LoginDialog.on_cancel_or_quit d).wait_queue = true
        ∧ (d.user, d.password, true) ∈ (LoginDialog.on_cancel_or_quit d).wait_queue) := by
  constructor
  · intro p
    rfl
  · intro d
    refine ⟨?_, ?_⟩
    · simp [LoginDialog.on_cancel_or_quit, LoginDialog.return_values, channelDelivered]
    · simp [LoginDialog.on_cancel_or_quit, LoginDialog.return_values]

/-- Claim C4, counterexample: with user default alice and no password
default, immediately submitting empty strings returns (alice, empty, not
cancelled) — the empty username falls back to the default instead of the
claimed empty string — and cancelling without edits returns the raw prior
defaults (alice, None, cancelled): the absent password default is returned
as an absent value, not as the claimed empty string. -/
theorem login_details_empty_submission_counterexample :
    CLI.login_details "Login" (some "alice") none true
        [InEvent.line "", InEvent.line ""]
      = Except.ok ((some "alice", some "", false), [])
    ∧ CLI.login_details "Login" (some "alice") none true [InEvent.interrupt]
      = Except.ok ((some "alice", none, true), [InEvent.interrupt]) :=
  ⟨rfl, rfl⟩

/-- Claim C4, amended: submitting empty strings makes each field fall back
to its prior default, with absent defaults resolving to empty strings only
on the submit path — so user alice with no password default yields
(alice, empty, false) on empty submission — while cancelling returns the
raw prior defaults with the cancelled flag, so an absent default is
returned absent: (alice, None, true) in the same scenario. -/
theorem login_details_defaults_behaviour :
    (∀ (prompt : String) (user pswd : Option String) (isatty : Bool)
        (rest : List InEvent),
      CLI.login_details prompt user pswd isatty
          (InEvent.line "" :: InEvent.line "" :: rest)
        = Except.ok ((some (user.getD ""), some (pswd.getD ""), false), rest))
    ∧ (∀ (prompt : String) (user pswd : Option String) (isatty : Bool)
        (rest : List InEvent),
      CLI.login_details prompt user pswd isatty (InEvent.interrupt :: rest)
        = Except.ok ((user, pswd, true), InEvent.interrupt :: rest)) := by
  constructor
  · intro prompt user pswd isatty rest
    cases isatty <;> rfl
  · intro prompt user pswd isatty rest
    rfl

/-- Claim C5, counterexample: an interrupt during the blocking read of
`confirm` or `file_selection` propagates as an unhandled KeyboardInterrupt
— neither returns a cancelled result, and `confirm` returns no boolean on
the interrupt path. -/
theorem confirm_interrupt_propagates :
    CLI.confirm "continue?" [InEvent.interrupt]
      = Except.error PyErr.keyboardInterrupt
    ∧ CLI.file_selection "open" "file to read" "*" [InEvent.interrupt]
      = Except.error PyErr.keyboardInterrupt :=
  ⟨rfl, rfl⟩

/-- Claim C5, amended: only `login_details` recovers locally from an input
interruption, returning the prior defaults with the cancelled flag whether
the interrupt hits the username or the password read; `confirm` and
`file_selection` have no handler, so the interruption propagates as an
unhandled failure out of them. -/
theorem interrupt_recovery_only_login_details :
    (∀ (prompt : String) (user pswd : Option String) (isatty : Bool)
        (rest : List InEvent),
      CLI.login_details prompt user pswd isatty (InEvent.interrupt :: rest)
        = Except.ok ((user, pswd, true), InEvent.interrupt :: rest))
    ∧ (∀ (prompt : String) (user pswd : Option String) (isatty : Bool)
        (lu : String) (rest : List InEvent),
      CLI.login_details prompt user pswd isatty
          (InEvent.line lu :: InEvent.interrupt :: rest)
        = Except.ok ((user, pswd, true), InEvent.interrupt :: rest))
    ∧ (∀ (q : String) (rest : List InEvent),
      CLI.confirm q (InEvent.interrupt :: rest)
        = Except.error PyErr.keyboardInterrupt)
    ∧ (∀ (t q p : String) (rest : List InEvent),
      CLI.file_selection t q p (InEvent.interrupt :: rest)
        = Except.error PyErr.keyboardInterrupt) := by
  refine ⟨?_, ?_, ?_, ?_⟩
  · intro prompt user pswd isatty rest
    rfl
  · intro prompt user pswd isatty lu rest
    cases isatty <;> rfl
  · intro q rest
    rfl
  · intro t q p rest
    rfl

/-- Claim C6: on a started terminal backend in quiet mode, `inform` without
force changes nothing (no visible output), `inform` with force prints, and
`warn`, `alert` and `alert_fatal` print regardless of the quiet flag. -/
theorem cli_quiet_suppresses_only_unforced_inform :
    (∀ (s : CLI) (text : String) (args : List String),
      s.be_quiet = true → s.inform text args false = Except.ok s)
    ∧ (∀ (s : CLI) (text : String) (args : List String) (r : String),
      s.started = true → pyFormat text args = Except.ok r →
      s.inform text args true
        = Except.ok { s with output := s.output ++ [(r, "info")] })
    ∧ (∀ (s : CLI) (text : String) (args : List String) (r : String),
      s.started = true → pyFormat text args = Except.ok r →
      s.warn text args = Except.ok { s with output := s.output ++ [(r, "warn")] }
      ∧ s.alert text args
          = Except.ok { s with output := s.output ++ [(r, "alert")] }
      ∧ s.alert_fatal text args none
          = Except.ok { s with output := s.output ++ [(r, "fatal")] }) := by
  refine ⟨?_, ?_, ?_⟩
  · intro s text args hq
    simp [CLI.inform, hq]
  · intro s text args r hs hf
    simp [CLI.inform, Except.map, hf, print_or_queue_started s r "info" hs]
  · intro s text args r hs hf
    refine ⟨?_, ?_, ?_⟩
    · simp [CLI.warn, Except.map, hf, print_or_queue_started s r "warn" hs]
    · simp [CLI.alert, Except.map, hf, print_or_queue_started s r "alert" hs]
    · simp [CLI.alert_fatal, Except.map, hf, print_or_queue_started s r "fatal" hs]

/-- Witness for C6: a concrete started quiet backend evaluated on the
scenario of the reference test (inform suppressed, warn printed). -/
theorem cli_quiet_witness :
    (CLI.start (CLI.init { demoCfg with be_quiet := true })).inform "foo" [] false
      = Except.ok (CLI.start (CLI.init { demoCfg with be_quiet := true }))
    ∧ (CLI.start (CLI.init { demoCfg with be_quiet := true })).inform "foo" [] true
      = Except.ok { CLI.start (CLI.init { demoCfg with be_quiet := true }) with
          output := [("foo", "info")] }
    ∧ (CLI.start (CLI.init { demoCfg with be_quiet := true })).warn "foo" []
      = Except.ok { CLI.start (CLI.init { demoCfg with be_quiet := true }) with
          output := [("foo", "warn")] } := by
  refine ⟨?_, ?_, ?_⟩
  · exact cli_quiet_suppresses_only_unforced_inform.1 _ "foo" [] rfl
  · have h := cli_quiet_suppresses_only_unforced_inform.2.1
      (CLI.start (CLI.init { demoCfg with be_quiet := true })) "foo" [] "foo" rfl rfl
    simpa using h
  · have h := (cli_quiet_suppresses_only_unforced_inform.2.2
      (CLI.start (CLI.init { demoCfg with be_quiet := true })) "foo" [] "foo" rfl rfl).1
    simpa using h

/-- Once the singleton cell holds a backend, any further sequence of
constructor calls leaves it untouched. -/
theorem newAll_some (b : Backend) (cfgs : List Config) :
    UIState.newAll { inst := some b } cfgs = { inst := some b } := by
  induction cfgs with
  | nil => rfl
  | cons c cs ih =>
    have h : UIState.newAll { inst := some b } (c :: cs)
        = UIState.newAll (UIState.new { inst := some b } c).2 cs := rfl
    rw [h]
    exact ih

/-- Claim C7: the first constructor call builds the sole Instance, terminal
or windowed according to that call's `use_gui` flag; every later call
returns that same Instance and ignores all of its arguments; after any
sequence of constructor calls the singleton cell holds exactly the backend
built by the first call. -/
theorem ui_singleton_first_call_fixes_instance :
    (∀ cfg : Config, UIState.new { inst := none } cfg
      = (if cfg.use_gui then Backend.gui (GUI.init cfg)
         else Backend.cli (CLI.init cfg),
         { inst := some (if cfg.use_gui then Backend.gui (GUI.init cfg)
                         else Backend.cli (CLI.init cfg)) }))
    ∧ (∀ (b : Backend) (cfg : Config),
        UIState.new { inst := some b } cfg = (b, { inst := some b }))
    ∧ (∀ (cfg0 : Config) (cfgs : List Config),
        UIState.newAll { inst := none } (cfg0 :: cfgs)
          = { inst := some (UIState.new { inst := none } cfg0).1 }) := by
  refine ⟨?_, ?_, ?_⟩
  · intro cfg
    simp [UIState.new]
  · intro b cfg
    rfl
  · intro cfg0 cfgs
    have h0 : UIState.newAll { inst := none } (cfg0 :: cfgs)
        = UIState.newAll (UIState.new { inst := none } cfg0).2 cfgs := rfl
    have h1 : (UIState.new { inst := none } cfg0).2
        = { inst := some (UIState.new { inst := none } cfg0).1 } := rfl
    rw [h0, h1]
    exact newAll_some _ _

/-- Claim C8, counterexample: on a started terminal backend, `alert_fatal`
acknowledged by the user (the CLI needs no acknowledgment: the call simply
returns) leaves the backend exactly as it was but for the printed fatal
message — still started, queue untouched — and `stop()` itself (which is
never called by `alert_fatal`) is the identity, so no transition to a
Stopped state happens in the terminal variant. -/
theorem cli_alert_fatal_does_not_stop :
    demoStartedCLI.started = true
    ∧ CLI.alert_fatal demoStartedCLI "boom" [] none
      = Except.ok { demoStartedCLI with
          output := demoStartedCLI.output ++ [("boom", "fatal")] }
    ∧ CLI.stop demoStartedCLI = demoStartedCLI :=
  ⟨rfl, rfl, rfl⟩

/-- Claim C8, amended: in the windowed variant, once the user's click
closes the fatal-alert dialog the acknowledgment always unblocks the
waiting `alert_fatal`, which then posts the shutdown signal (so a stop
signal is always among the posted topics); in the terminal variant,
`alert_fatal` only prints — its body never calls `stop()` — and `stop()`
itself is a no-op, so the terminal backend undergoes no lifecycle
transition. -/
theorem alert_fatal_stop_by_variant :
    (∀ (s : CLI) (text : String) (args : List String) (r : String),
      pyFormat text args = Except.ok r →
      CLI.alert_fatal s text args none = Except.ok (s.print_or_queue r "fatal"))
    ∧ (∀ s : CLI, CLI.stop s = s)
    ∧ (∀ c : AlertClick,
        showAlertDialogFatalAcks c = true ∧ "stop" ∈ GUI.alert_fatal_posts c) := by
  refine ⟨?_, ?_, ?_⟩
  · intro s text args r hf
    simp [CLI.alert_fatal, Except.map, hf]
  · intro s
    rfl
  · intro c
    cases c <;> simp [showAlertDialogFatalAcks, GUI.alert_fatal_posts,
      showAlertDialogFatalPosts]

/-- Witness for the amended C8: the terminal half evaluated at a concrete
started backend and message. -/
theorem alert_fatal_stop_by_variant_witness :
    CLI.alert_fatal demoStartedCLI "x" [] none
      = Except.ok (demoStartedCLI.print_or_queue "x" "fatal")
    ∧ showAlertDialogFatalAcks AlertClick.okBtn = true
    ∧ "stop" ∈ GUI.alert_fatal_posts AlertClick.okBtn :=
  ⟨alert_fatal_stop_by_variant.1 demoStartedCLI "x" [] "x" rfl,
   alert_fatal_stop_by_variant.2.2 AlertClick.okBtn⟩

/-- Claim C9: the terminal `file_selection` returns exactly the line the
user types, as a plain string (the success payload is a string, never an
absent value); the `pattern` argument never influences the result; and the
prompt shown is the capitalized mode followed by the purpose, as in the
concrete evaluation of the last conjunct. -/
theorem cli_file_selection_returns_typed_line :
    (∀ (t q p l : String) (rest : List InEvent),
      CLI.file_selection t q p (InEvent.line l :: rest) = Except.ok (l, rest))
    ∧ (∀ (t q p1 p2 : String) (stdin : List InEvent),
      CLI.file_selection t q p1 stdin = CLI.file_selection t q p2 stdin)
    ∧ CLI.file_selection_prompt "open" "file to read" = "Open file to read: " := by
  refine ⟨?_, ?_, ?_⟩
  · intro t q p l rest
    rfl
  · intro t q p1 p2 stdin
    rfl
  · rfl

/-- Claim C10: the terminal `alert_fatal` appends the details before
formatting — with a details keyword the rendered message is the placeholder
substitution applied to text-newline-details as a whole, and without it to
the text alone; consequently placeholders inside the details string are
substituted (third conjunct), and a stray brace inside the details makes
the whole call raise a formatting failure (fourth conjunct). -/
theorem cli_alert_fatal_formats_after_details_append :
    (∀ (s : CLI) (text : String) (args : List String) (d r : String),
      s.started = true → pyFormat (text ++ "\n" ++ d) args = Except.ok r →
      CLI.alert_fatal s text args (some d)
        = Except.ok { s with output := s.output ++ [(r, "fatal")] })
    ∧ (∀ (s : CLI) (text : String) (args : List String) (r : String),
      s.started = true → pyFormat text args = Except.ok r →
      CLI.alert_fatal s text args none
        = Except.ok { s with output := s.output ++ [(r, "fatal")] })
    ∧ pyFormat ("failed" ++ "\n" ++ "code \x7b\x7d") ["42"]
      = Except.ok "failed\ncode 42"
    ∧ pyFormat ("x" ++ "\n" ++ "\x7d") []
      = Except.error (PyErr.valueError "Single brace encountered in format string") := by
  refine ⟨?_, ?_, ?_, ?_⟩
  · intro s text args d r hs hf
    rw [String.append_assoc] at hf
    simp [CLI.alert_fatal, Except.map, hf, print_or_queue_started s r "fatal" hs]
  · intro s text args r hs hf
    simp [CLI.alert_fatal, Except.map, hf, print_or_queue_started s r "fatal" hs]
  · rfl
  · rfl

/-- Witness for C10: the details-append formatting evaluated on a concrete
started backend with a placeholder in the text and one in the details. -/
theorem cli_alert_fatal_formats_witness :
    CLI.alert_fatal demoStartedCLI "failed" ["42"] (some "code \x7b\x7d")
      = Except.ok { demoStartedCLI with
          output := demoStartedCLI.output ++ [("failed\ncode 42", "fatal")] } :=
  cli_alert_fatal_formats_after_details_append.1 demoStartedCLI "failed" ["42"]
    "code \x7b\x7d" "failed\ncode 42" rfl rfl
